import Mathlib

/-!
Shallow embedding of `src/cocotb_bus/drivers/__init__.py` (cocotb-bus driver
base classes) and proofs about its queuing/serialization discipline.

Transactions, callbacks and completion events are opaque in the source, so
they are represented by natural-number identifiers.  cocotb's cooperative
scheduler runs exactly one coroutine at a time between explicit suspension
points, so the drain task `Driver._send_thread` processing its queue is
modelled as a function on an explicit driver state.
-/

/-- One entry of `Driver._sendQ`: the tuple
`(transaction, callback, event, kwargs)` pushed by `Driver.append`
(kwargs carry no behaviour observed by the claims and are omitted). -/
structure QItem where
  transaction : Nat
  callback : Option Nat
  event : Option Nat
deriving DecidableEq, Repr

/-- Observable state of one `Driver` instance: the pending queue, the
`_pending` event flag, and the histories recorded by draining — each call
to `_driver_send` as a `(transaction, sync)` pair in call order, each
completion event set, and each callback invocation `(callback, transaction)`. -/
structure DriverState where
  sendQ : List QItem
  pendingSet : Bool
  sends : List (Nat × Bool)
  eventsSet : List Nat
  callbacksInvoked : List (Nat × Nat)
deriving DecidableEq, Repr

/-- State after `Driver.__init__`: empty queue, nothing sent. -/
def initDriver : DriverState :=
  { sendQ := [], pendingSet := false, sends := [], eventsSet := [],
    callbacksInvoked := [] }

namespace Driver

/-- Embeds `Driver.append`: `self._sendQ.append(...)` then `self._pending.set()`. -/
def append (s : DriverState) (i : QItem) : DriverState :=
  { s with sendQ := s.sendQ ++ [i], pendingSet := true }

/-- A sequence of `append` calls, in order. -/
def appendAll (s : DriverState) (items : List QItem) : DriverState :=
  items.foldl append s

/-- Embeds `Driver.clear`: `self._sendQ = deque()` — the queue is replaced
by an empty one and nothing else changes. -/
def clear (s : DriverState) : DriverState :=
  { s with sendQ := [] }

/-- Embeds `Driver._send` for one queue entry: call `_driver_send`
(recorded in `sends` with its `sync` flag), then set the completion event
if present, then invoke the callback if present — in that source order. -/
def sendOne (s : DriverState) (i : QItem) (sync : Bool) : DriverState :=
  let s1 := { s with sends := s.sends ++ [(i.transaction, sync)] }
  let s2 := match i.event with
    | some e => { s1 with eventsSet := s1.eventsSet ++ [e] }
    | none => s1
  match i.callback with
  | some c => { s2 with callbacksInvoked := s2.callbacksInvoked ++ [(c, i.transaction)] }
  | none => s2

theorem sendOne_sendQ (s : DriverState) (i : QItem) (b : Bool) :
    (sendOne s i b).sendQ = s.sendQ := by
  unfold sendOne
  cases i.event <;> cases i.callback <;> rfl

/-- Embeds the inner batch loop of `Driver._send_thread`:
`while self._sendQ: transaction, callback, event, kwargs = self._sendQ.popleft();
await self._send(..., sync=not synchronised); synchronised = True`. -/
def drainBatch (s : DriverState) (synchronised : Bool) : DriverState :=
  match h : s.sendQ with
  | [] => s
  | i :: rest => drainBatch (sendOne { s with sendQ := rest } i (!synchronised)) true
termination_by s.sendQ.length
decreasing_by
  simp [sendOne_sendQ, h]

/-- The `(transaction, sync)` pairs a batch drain passes to `_driver_send`,
as a function of the queue contents and the incoming `synchronised` flag. -/
def batchSends (q : List QItem) (synchronised : Bool) : List (Nat × Bool) :=
  match q with
  | [] => []
  | i :: rest => (i.transaction, !synchronised) :: batchSends rest true

/-- The completion events a batch drain sets, in order. -/
def batchEvents (q : List QItem) : List Nat :=
  q.filterMap QItem.event

/-- The callback invocations a batch drain performs, in order. -/
def batchCallbacks (q : List QItem) : List (Nat × Nat) :=
  q.filterMap (fun i => i.callback.map (fun c => (c, i.transaction)))

theorem sendOne_spec (s : DriverState) (i : QItem) (b : Bool) :
    sendOne s i b =
      { s with
        sends := s.sends ++ [(i.transaction, b)],
        eventsSet := s.eventsSet ++ i.event.toList,
        callbacksInvoked :=
          s.callbacksInvoked ++ (i.callback.map (fun c => (c, i.transaction))).toList } := by
  unfold sendOne
  cases i.event <;> cases i.callback <;> simp

/-- Full characterisation of one batch drain. -/
theorem drainBatch_spec :
    ∀ (q : List QItem) (s : DriverState) (b : Bool), s.sendQ = q →
      drainBatch s b =
        { s with
          sendQ := [],
          sends := s.sends ++ batchSends q b,
          eventsSet := s.eventsSet ++ batchEvents q,
          callbacksInvoked := s.callbacksInvoked ++ batchCallbacks q } := by
  intro q
  induction q with
  | nil =>
    intro s b hq
    obtain ⟨sq, p, sd, ev, cb⟩ := s
    simp only at hq
    subst hq
    rw [drainBatch]
    split
    · simp [batchSends, batchEvents, batchCallbacks]
    · simp_all
  | cons i rest ih =>
    intro s b hq
    obtain ⟨sq, p, sd, ev, cb⟩ := s
    simp only at hq
    subst hq
    rw [drainBatch]
    split
    · simp_all
    · rename_i i2 rest2 heq
      simp only [List.cons.injEq] at heq
      obtain ⟨h1, h2⟩ := heq
      subst h1
      subst h2
      rw [ih _ true (by simp [sendOne_sendQ])]
      cases he : i.event <;> cases hc : i.callback <;>
        simp [sendOne_spec, batchSends, batchEvents, batchCallbacks, he, hc,
              List.filterMap_cons]

theorem appendAll_spec (items : List QItem) (s : DriverState) :
    (appendAll s items).sendQ = s.sendQ ++ items ∧
    (appendAll s items).sends = s.sends ∧
    (appendAll s items).eventsSet = s.eventsSet ∧
    (appendAll s items).callbacksInvoked = s.callbacksInvoked := by
  induction items generalizing s with
  | nil => simp [appendAll]
  | cons i rest ih =>
    have h := ih (append s i)
    simpa [appendAll, append] using h

theorem batchSends_map_fst (q : List QItem) (b : Bool) :
    (batchSends q b).map Prod.fst = q.map QItem.transaction := by
  induction q generalizing b with
  | nil => simp [batchSends]
  | cons i rest ih => simp [batchSends, ih]

theorem batchSends_true_map_snd (q : List QItem) :
    (batchSends q true).map Prod.snd = List.replicate q.length false := by
  induction q with
  | nil => simp [batchSends]
  | cons i rest ih => simp [batchSends, ih, List.replicate_succ]

end Driver

/-- C1: with distinct payloads appended to a fresh Driver, the drain task
invokes `_driver_send` on exactly those payloads in append (FIFO) order. -/
theorem claim_C1_fifo_order (ts : List QItem)
    (_hdistinct : (ts.map QItem.transaction).Nodup) :
    ((Driver.drainBatch (Driver.appendAll initDriver ts) false).sends).map Prod.fst
      = ts.map QItem.transaction := by
  have happ := Driver.appendAll_spec ts initDriver
  rw [Driver.drainBatch_spec ts _ false (by simpa [initDriver] using happ.1)]
  simp only [happ.2.1]
  simp [initDriver, Driver.batchSends_map_fst]

theorem claim_C1_fifo_order_witness :
    (([⟨1, none, none⟩, ⟨2, none, none⟩, ⟨3, none, none⟩] : List QItem).map
        QItem.transaction).Nodup ∧
    ((Driver.drainBatch
        (Driver.appendAll initDriver
          [⟨1, none, none⟩, ⟨2, none, none⟩, ⟨3, none, none⟩]) false).sends).map Prod.fst
      = ([⟨1, none, none⟩, ⟨2, none, none⟩, ⟨3, none, none⟩] : List QItem).map
          QItem.transaction :=
  ⟨by decide, claim_C1_fifo_order _ (by decide)⟩

/-- C2: a drained batch of two or more queued transactions uses `sync=true`
for its first `_driver_send` call and `sync=false` for every later one. -/
theorem claim_C2_first_send_synchronised (ts : List QItem) (hlen : 2 ≤ ts.length) :
    ((Driver.drainBatch (Driver.appendAll initDriver ts) false).sends).map Prod.snd
      = true :: List.replicate (ts.length - 1) false := by
  have happ := Driver.appendAll_spec ts initDriver
  rw [Driver.drainBatch_spec ts _ false (by simpa [initDriver] using happ.1)]
  cases ts with
  | nil => simp at hlen
  | cons i rest =>
    simp only [happ.2.1]
    simp [initDriver, Driver.batchSends, Driver.batchSends_true_map_snd]

theorem claim_C2_first_send_synchronised_witness :
    2 ≤ ([⟨1, none, none⟩, ⟨2, none, none⟩] : List QItem).length ∧
    ((Driver.drainBatch
        (Driver.appendAll initDriver [⟨1, none, none⟩, ⟨2, none, none⟩]) false).sends).map
        Prod.snd
      = true :: List.replicate (([⟨1, none, none⟩, ⟨2, none, none⟩] : List QItem).length - 1)
          false :=
  ⟨by decide, claim_C2_first_send_synchronised _ (by decide)⟩

/-- C3: after `clear()`, no completion event and no callback belonging to a
transaction that was pending in the queue at clear time is ever signalled or
invoked by subsequent drain activity, even after new items are appended. -/
theorem claim_C3_clear_drops_notifications (s : DriverState) (newItems : List QItem)
    (e c : Nat)
    (_hpendE : ∃ i ∈ s.sendQ, i.event = some e)
    (_hpendC : ∃ i ∈ s.sendQ, i.callback = some c)
    (hnewE : ∀ i ∈ newItems, i.event ≠ some e)
    (hnewC : ∀ i ∈ newItems, i.callback ≠ some c)
    (holdE : e ∉ s.eventsSet)
    (holdC : ∀ x, (c, x) ∉ s.callbacksInvoked) :
    e ∉ (Driver.drainBatch (Driver.appendAll (Driver.clear s) newItems) false).eventsSet ∧
    ∀ x, (c, x) ∉
      (Driver.drainBatch (Driver.appendAll (Driver.clear s) newItems) false).callbacksInvoked := by
  have hq : (Driver.appendAll (Driver.clear s) newItems).sendQ = newItems := by
    simpa [Driver.clear] using (Driver.appendAll_spec newItems (Driver.clear s)).1
  have he : (Driver.appendAll (Driver.clear s) newItems).eventsSet = s.eventsSet := by
    simpa [Driver.clear] using (Driver.appendAll_spec newItems (Driver.clear s)).2.2.1
  have hc : (Driver.appendAll (Driver.clear s) newItems).callbacksInvoked
      = s.callbacksInvoked := by
    simpa [Driver.clear] using (Driver.appendAll_spec newItems (Driver.clear s)).2.2.2
  rw [Driver.drainBatch_spec newItems _ false hq]
  constructor
  · intro hmem
    simp only [he, Driver.batchEvents, List.mem_append, List.mem_filterMap] at hmem
    rcases hmem with hold | ⟨i, hi, hie⟩
    · exact holdE hold
    · exact hnewE i hi hie
  · intro x hmem
    simp only [hc, Driver.batchCallbacks, List.mem_append, List.mem_filterMap] at hmem
    rcases hmem with hold | ⟨i, hi, hic⟩
    · exact holdC x hold
    · rcases Option.map_eq_some'.mp hic with ⟨c2, hc2, hpair⟩
      cases hpair
      exact hnewC i hi hc2

theorem claim_C3_clear_drops_notifications_witness :
    9 ∉ (Driver.drainBatch
          (Driver.appendAll
            (Driver.clear
              { sendQ := [⟨1, some 4, some 9⟩], pendingSet := true, sends := [],
                eventsSet := [], callbacksInvoked := [] })
            [⟨2, some 5, some 8⟩]) false).eventsSet ∧
    (4, 2) ∉ (Driver.drainBatch
          (Driver.appendAll
            (Driver.clear
              { sendQ := [⟨1, some 4, some 9⟩], pendingSet := true, sends := [],
                eventsSet := [], callbacksInvoked := [] })
            [⟨2, some 5, some 8⟩]) false).callbacksInvoked := by
  have h := claim_C3_clear_drops_notifications
    { sendQ := [⟨1, some 4, some 9⟩], pendingSet := true, sends := [],
      eventsSet := [], callbacksInvoked := [] }
    [⟨2, some 5, some 8⟩] 9 4
    (by decide) (by decide) (by decide) (by decide) (by decide) (by simp)
  exact ⟨h.1, h.2 2⟩


/-!
ValidatedBusDriver: the source attributes `self.on` / `self.off` hold Python
values that may be `None` (initial), a `bool` (`False` at loop entry, `True`
on generator exhaustion or when no generator is configured) or an `int`
taken from a generator pair.  They are modelled by the fields `onv` / `offv`
(`on` is a reserved token in Lean).  The valid generator is modelled by its
remaining stream of `(on, off)` pairs; an empty remainder raises
`StopIteration` on `next`.
-/

/-- A Python value as stored in `self.on` / `self.off`. -/
inductive PyVal where
  | pynone
  | pybool (b : Bool)
  | pyint (n : Nat)
deriving DecidableEq, Repr

/-- Python truthiness of a `PyVal`: `None`, `False` and `0` are falsy. -/
def PyVal.truthy : PyVal → Bool
  | .pynone => false
  | .pybool b => b
  | .pyint n => n ≠ 0

/-- State of a `ValidatedBusDriver`: the remaining pairs of the configured
valid generator (`none` when no generator is configured) and the `on` /
`off` attributes. -/
structure VState where
  valid_generator : Option (List (Nat × Nat))
  onv : PyVal
  offv : PyVal
deriving DecidableEq, Repr

namespace ValidatedBusDriver

/-- Embeds the `while not self.on:` loop of `_next_valids`:
`self.on, self.off = next(self.valid_generator)` assigns both attributes from
the next pair, the loop re-checks truthiness of `on`, and `StopIteration`
sets only `self.on = True` and returns. -/
def nextValidsLoop : List (Nat × Nat) → VState → VState
  | [], s => { s with valid_generator := some [], onv := .pybool true }
  | (a, b) :: rest, s =>
    let s1 : VState := { s with valid_generator := some rest, onv := .pyint a,
                                offv := .pyint b }
    if s1.onv.truthy then s1 else nextValidsLoop rest s1

/-- Embeds `ValidatedBusDriver._next_valids`: set `self.on = False`; with no
generator configured set `self.on, self.off = True, False`; otherwise run
the consume loop. -/
def nextValids (s : VState) : VState :=
  let s0 : VState := { s with onv := .pybool false }
  match s0.valid_generator with
  | none => { s0 with onv := .pybool true, offv := .pybool false }
  | some g => nextValidsLoop g s0

/-- Embeds `ValidatedBusDriver.set_valid_generator`: store the generator and
immediately recompute via `_next_valids`. -/
def setValidGenerator (s : VState) (vg : Option (List (Nat × Nat))) : VState :=
  nextValids { s with valid_generator := vg }

/-- State after `ValidatedBusDriver.__init__` with the given
`valid_generator` argument: `on` and `off` start as `None`, then
`set_valid_generator` runs. -/
def initValidated (vg : Option (List (Nat × Nat))) : VState :=
  setValidGenerator { valid_generator := none, onv := .pynone, offv := .pynone } vg

/-- The `off` value after the loop consumes every pair of `l`: the off count
of the last pair, or the previous value when no pair was consumed. -/
def lastOffOr : List (Nat × Nat) → PyVal → PyVal
  | [], d => d
  | p :: rest, _ => lastOffOr rest (.pyint p.2)

/-- Running the consume loop on a remainder whose pairs all have a zero
`on` count exhausts the generator: `on` ends `True`, `off` keeps the last
consumed pair's off count (or its prior value), and the remainder is empty. -/
theorem nextValidsLoop_all_zero :
    ∀ (l : List (Nat × Nat)) (s : VState), (∀ p ∈ l, p.1 = 0) →
      nextValidsLoop l s =
        { valid_generator := some [], onv := .pybool true, offv := lastOffOr l s.offv } := by
  intro l
  induction l with
  | nil =>
    intro s _
    simp [nextValidsLoop, lastOffOr]
  | cons p rest ih =>
    intro s hz
    obtain ⟨a, b⟩ := p
    have ha : a = 0 := hz (a, b) (by simp)
    subst ha
    simp only [nextValidsLoop, PyVal.truthy]
    rw [if_neg (by simp)]
    rw [ih _ (fun q hq => hz q (List.mem_cons_of_mem _ hq))]
    simp [lastOffOr]

end ValidatedBusDriver

/-- C4: constructing a ValidatedBusDriver with a valid generator yielding
`(0,3), (0,2), (5,1)` makes the single `_next_valids` call skip the two
zero-`on` pairs and settle on `on = 5`, `off = 1`. -/
theorem claim_C4_skips_zero_on_pairs :
    ValidatedBusDriver.initValidated (some [(0, 3), (0, 2), (5, 1)]) =
      { valid_generator := some [], onv := .pyint 5, offv := .pyint 1 } := by
  decide

/-- C5: once the valid generator is exhausted, every later `_next_valids`
call terminates with `on = True` — the embedding is a total function, and
iterating it any positive number of times from an exhausted-generator state
always leaves `on = True`. -/
theorem claim_C5_exhausted_on_true (s : VState) (k : Nat)
    (hg : s.valid_generator = some []) (hk : 1 ≤ k) :
    (ValidatedBusDriver.nextValids^[k] s).onv = .pybool true := by
  induction k generalizing s with
  | zero => omega
  | succ j ih =>
    have hstep : ValidatedBusDriver.nextValids s =
        { s with valid_generator := some [], onv := .pybool true } := by
      obtain ⟨vg, von, voff⟩ := s
      simp only at hg
      subst hg
      simp [ValidatedBusDriver.nextValids, ValidatedBusDriver.nextValidsLoop]
    rw [Function.iterate_succ_apply, hstep]
    rcases Nat.eq_zero_or_pos j with hj | hj
    · subst hj
      simp
    · exact ih _ rfl hj

theorem claim_C5_exhausted_on_true_witness :
    (⟨some [], .pyint 5, .pyint 1⟩ : VState).valid_generator = some [] ∧ 1 ≤ 2 ∧
    (ValidatedBusDriver.nextValids^[2] (⟨some [], .pyint 5, .pyint 1⟩ : VState)).onv
      = .pybool true :=
  ⟨rfl, by decide,
    claim_C5_exhausted_on_true (⟨some [], .pyint 5, .pyint 1⟩ : VState) 2 rfl (by decide)⟩

/-- C9: when `_next_valids` hits `StopIteration`, the handler updates only
`on` (to `True`): `off` keeps the value it last held — the off count of the
last pair consumed during this call, or its prior value when the remainder
was already empty. -/
theorem claim_C9_exhaustion_preserves_off (s : VState) (l : List (Nat × Nat))
    (hg : s.valid_generator = some l) (hz : ∀ p ∈ l, p.1 = 0) :
    (ValidatedBusDriver.nextValids s).onv = .pybool true ∧
    (ValidatedBusDriver.nextValids s).offv = ValidatedBusDriver.lastOffOr l s.offv ∧
    (ValidatedBusDriver.nextValids s).valid_generator = some [] := by
  obtain ⟨vg, von, voff⟩ := s
  simp only at hg
  subst hg
  simp only [ValidatedBusDriver.nextValids]
  rw [ValidatedBusDriver.nextValidsLoop_all_zero l _ hz]
  simp

theorem claim_C9_exhaustion_preserves_off_witness :
    (⟨some [(0, 7)], .pyint 1, .pyint 3⟩ : VState).valid_generator = some [(0, 7)] ∧
    (ValidatedBusDriver.nextValids (⟨some [(0, 7)], .pyint 1, .pyint 3⟩ : VState)).onv
       = .pybool true ∧
    (ValidatedBusDriver.nextValids (⟨some [(0, 7)], .pyint 1, .pyint 3⟩ : VState)).offv
       = ValidatedBusDriver.lastOffOr [(0, 7)] (.pyint 3) ∧
    (ValidatedBusDriver.nextValids
        (⟨some [(0, 7)], .pyint 1, .pyint 3⟩ : VState)).valid_generator = some [] :=
  ⟨rfl, claim_C9_exhaustion_preserves_off
    (⟨some [(0, 7)], .pyint 1, .pyint 3⟩ : VState) [(0, 7)] rfl (by decide)⟩

/-!
Busy lock, send path actions, BitDriver start, kill, and the socket
poll loop.
-/

/-- Primitive effects a send path can perform, in program order. -/
inductive DriverAction where
  | acquireLock
  | releaseLock
  | waitRisingEdge
  | writeBus (tx : Nat)
  | setEvent (e : Nat)
  | invokeCallback (c tx : Nat)
deriving DecidableEq, Repr

/-- State touched by `Driver._acquire_lock` / `Driver._release_lock`: the
`busy` flag and whether `busy_event` is set. -/
structure LockState where
  busy : Bool
  eventIsSet : Bool
deriving DecidableEq, Repr

namespace Driver

/-- Embeds `Driver._acquire_lock`: when `busy` the coroutine suspends on
`busy_event.wait()` (modelled as `none`); otherwise it clears the event and
sets `busy`. -/
def acquireLock (s : LockState) : Option LockState :=
  if s.busy then none
  else some { busy := true, eventIsSet := false }

/-- Embeds `Driver._release_lock`: clear `busy` and set `busy_event`. -/
def releaseLock (_ : LockState) : LockState :=
  { busy := false, eventIsSet := true }

end Driver

namespace BusDriver

/-- Embeds `BusDriver._driver_send`: `if sync: await RisingEdge(self.clock)`
then `self.bus.value = transaction`. -/
def driverSendActions (tx : Nat) (sync : Bool) : List DriverAction :=
  (if sync then [DriverAction.waitRisingEdge] else []) ++ [DriverAction.writeBus tx]

end BusDriver

namespace Driver

/-- Embeds `Driver._send` for a BusDriver: `await self._driver_send(...)`,
then `if event: event.set()`, then `if callback: callback(transaction)`. -/
def sendActions (tx : Nat) (callback event : Option Nat) (sync : Bool) :
    List DriverAction :=
  BusDriver.driverSendActions tx sync
    ++ (match event with | some e => [DriverAction.setEvent e] | none => [])
    ++ (match callback with | some c => [DriverAction.invokeCallback c tx] | none => [])

end Driver

/-- C6 counterexample: at the concrete send `_send(7, callback=1, event=2,
sync=True)` of a BusDriver, the low-level path writes the bus yet never
performs a busy-lock acquisition — `_acquire_lock` exists but the send path
does not call it, so the claimed "every low-level send path acquires the
busy lock before writing" fails. -/
theorem claim_C6_counterexample :
    DriverAction.writeBus 7 ∈ Driver.sendActions 7 (some 1) (some 2) true ∧
    DriverAction.acquireLock ∉ Driver.sendActions 7 (some 1) (some 2) true := by
  decide

/-- C6 (amended): `_acquire_lock` / `_release_lock` maintain the busy flag
as a mutex primitive — acquiring when free marks the driver busy and clears
the event, acquiring when busy suspends, releasing frees the flag and
signals the event — but the base-class send path (`_send` composed with
`BusDriver._driver_send`) writes the bus without ever acquiring the busy
lock; mutual exclusion is only available to callers that invoke
`_acquire_lock` themselves. -/
theorem claim_C6_amended :
    (∀ s : LockState, s.busy = false →
      Driver.acquireLock s = some { busy := true, eventIsSet := false }) ∧
    (∀ s : LockState, s.busy = true → Driver.acquireLock s = none) ∧
    (∀ s : LockState,
      (Driver.releaseLock s).busy = false ∧ (Driver.releaseLock s).eventIsSet = true) ∧
    (∀ (tx : Nat) (cb ev : Option Nat) (sync : Bool),
      DriverAction.writeBus tx ∈ Driver.sendActions tx cb ev sync ∧
      DriverAction.acquireLock ∉ Driver.sendActions tx cb ev sync) := by
  refine ⟨?_, ?_, ?_, ?_⟩
  · intro s hs
    simp [Driver.acquireLock, hs]
  · intro s hs
    simp [Driver.acquireLock, hs]
  · intro s
    simp [Driver.releaseLock]
  · intro tx cb ev sync
    cases cb <;> cases ev <;> cases sync <;>
      simp [Driver.sendActions, BusDriver.driverSendActions]

theorem claim_C6_amended_witness :
    Driver.acquireLock { busy := false, eventIsSet := true }
      = some { busy := true, eventIsSet := false } :=
  claim_C6_amended.1 { busy := false, eventIsSet := true } rfl

/-- State of a `BitDriver`: the stored cycle generator, if any was ever
supplied (its pairs are irrelevant to claim C7, only presence matters). -/
structure BitDriverState where
  generator : Option (List (Nat × Nat))
deriving DecidableEq, Repr

namespace BitDriver

/-- The message of the `Exception` raised by `_cr_twiddler` when no
generator was ever configured. -/
def noGeneratorMessage : String := "No generator provided!"

/-- Embeds the prefix of `BitDriver._cr_twiddler` that runs before its first
`await`: raise when neither a start-time nor a constructor generator exists,
otherwise store the start-time generator if one was given. -/
def crTwiddlerInit (d : BitDriverState) (generator : Option (List (Nat × Nat))) :
    Except String BitDriverState :=
  if generator = none ∧ d.generator = none then
    Except.error noGeneratorMessage
  else
    match generator with
    | some g => Except.ok { generator := some g }
    | none => Except.ok d

/-- Embeds `BitDriver.start`: `cocotb.fork(self._cr_twiddler(generator))`.
cocotb's `fork` runs the forked coroutine synchronously up to its first
`await` and an exception raised before that point propagates to the caller
of `fork` (documented cocotb scheduler behaviour), so `start` delivers the
outcome of the pre-`await` prefix to its caller. -/
def start (d : BitDriverState) (generator : Option (List (Nat × Nat))) :
    Except String BitDriverState :=
  crTwiddlerInit d generator

end BitDriver

/-- C7: calling `start` with no generator on a BitDriver constructed without
one raises the configuration error synchronously: `start` itself delivers
the error to its caller. -/
theorem claim_C7_start_without_generator_raises (d : BitDriverState)
    (h : d.generator = none) :
    BitDriver.start d none = Except.error BitDriver.noGeneratorMessage := by
  simp [BitDriver.start, BitDriver.crTwiddlerInit, h]

theorem claim_C7_start_without_generator_raises_witness :
    (⟨none⟩ : BitDriverState).generator = none ∧
    BitDriver.start (⟨none⟩ : BitDriverState) none
      = Except.error BitDriver.noGeneratorMessage :=
  ⟨rfl, claim_C7_start_without_generator_raises ⟨none⟩ rfl⟩

/-- State observed by `Driver.kill`: the `_thread` handle and, to record the
effect of `self._thread.kill()`, the tasks killed so far. -/
structure KillState where
  thread : Option Nat
  killedTasks : List Nat
deriving DecidableEq, Repr

namespace Driver

/-- Embeds `Driver.kill`: `if self._thread: self._thread.kill();
self._thread = None` — on a live handle kill it and drop the handle,
otherwise do nothing. -/
def kill (s : KillState) : KillState :=
  match s.thread with
  | some t => { thread := none, killedTasks := s.killedTasks ++ [t] }
  | none => s

end Driver

/-- C10: `kill` is idempotent — with a live drain task the first call kills
it and clears the handle, and any further `kill` is a no-op leaving the
state unchanged. -/
theorem claim_C10_kill_idempotent (s : KillState) (t : Nat)
    (h : s.thread = some t) :
    (Driver.kill s).thread = none ∧
    (Driver.kill s).killedTasks = s.killedTasks ++ [t] ∧
    Driver.kill (Driver.kill s) = Driver.kill s := by
  obtain ⟨th, killed⟩ := s
  simp only at h
  subst h
  simp [Driver.kill]

theorem claim_C10_kill_idempotent_witness :
    (⟨some 3, []⟩ : KillState).thread = some 3 ∧
    (Driver.kill (⟨some 3, []⟩ : KillState)).thread = none ∧
    (Driver.kill (⟨some 3, []⟩ : KillState)).killedTasks = [] ++ [3] ∧
    Driver.kill (Driver.kill (⟨some 3, []⟩ : KillState))
      = Driver.kill (⟨some 3, []⟩ : KillState) :=
  ⟨rfl, claim_C10_kill_idempotent (⟨some 3, []⟩ : KillState) 3 rfl⟩

/-- Outcome of `sock.recv(4096)` in one poll-loop iteration: data returned,
or a `socket.error` whose first argument is the given errno. -/
inductive RecvOutcome where
  | ok (data : List Nat)
  | err (eno : Nat)
deriving DecidableEq, Repr

/-- What one iteration of the `polled_socket_attachment` loop does after the
receive attempt resolves. -/
inductive PollStep where
  | continueNoAppend
  | appended (data : List Nat)
  | breakClean
  | raiseError (eno : Nat)
deriving DecidableEq, Repr

/-- Linux errno for a non-blocking read with no data available. -/
def EAGAIN : Nat := 11

/-- Alias of `EAGAIN` on Linux; the source checks both. -/
def EWOULDBLOCK : Nat := 11

/-- Embeds the body of the `while True:` loop of `polled_socket_attachment`
after `await RisingEdge(driver.clock)`: a would-block `socket.error`
continues the loop silently, any other `socket.error` is re-raised, an
empty read breaks out of the loop, and data is appended to the driver. -/
def polledSocketIteration (r : RecvOutcome) : PollStep :=
  match r with
  | .err e =>
    if e ∈ [EAGAIN, EWOULDBLOCK] then PollStep.continueNoAppend
    else PollStep.raiseError e
  | .ok data =>
    if ¬ data.length > 0 then PollStep.breakClean
    else PollStep.appended data

/-- C8: in one poll-loop iteration, a would-block error neither appends nor
terminates the loop; an empty read terminates the loop without raising; any
other socket error is re-raised, terminating the loop; and received data is
appended as a transaction to the driver. -/
theorem claim_C8_poll_iteration :
    (∀ e : Nat, e ∈ [EAGAIN, EWOULDBLOCK] →
      polledSocketIteration (.err e) = PollStep.continueNoAppend) ∧
    polledSocketIteration (.ok []) = PollStep.breakClean ∧
    (∀ e : Nat, e ∉ [EAGAIN, EWOULDBLOCK] →
      polledSocketIteration (.err e) = PollStep.raiseError e) ∧
    (∀ data : List Nat, data ≠ [] →
      polledSocketIteration (.ok data) = PollStep.appended data) := by
  refine ⟨?_, by decide, ?_, ?_⟩
  · intro e he
    simp [polledSocketIteration, he]
  · intro e he
    simp [polledSocketIteration, he]
  · intro data hd
    simp [polledSocketIteration, List.length_pos, hd]

theorem claim_C8_poll_iteration_witness :
    polledSocketIteration (.err EAGAIN) = PollStep.continueNoAppend ∧
    polledSocketIteration (.err 104) = PollStep.raiseError 104 ∧
    polledSocketIteration (.ok [5, 6]) = PollStep.appended [5, 6] :=
  ⟨claim_C8_poll_iteration.1 EAGAIN (by decide),
   claim_C8_poll_iteration.2.2.1 104 (by decide),
   claim_C8_poll_iteration.2.2.2 [5, 6] (by decide)⟩
